import Mathlib

/-!
# go-sql-listener: replay filter, event routing and lifecycle writers

A shallow embedding of `src/main.go`: the handler `MyEventHandler` with its
replay predicate `isBeforeStartingPosition`, the router `OnRow`, and the three
writers `insertRowIntoTransaction`, `updateRowIntoTransaction`,
`updateRowIntoTransactionFailed`.

The destination store is outside the program.  Its answers are taken as a
parameter (`Env`), and what the program asks of it is recorded as a list of
operations (`Op`), in the order the Go code performs them.  A Go run-time panic
is an outcome of its own, distinct from a returned `error`.
-/

namespace GoSqlListener

/-! ## Data model -/

/-- A column value of a row event (`interface{}` in the source). -/
inductive Value where
  | null
  | int (n : Int)
  | str (s : String)
  deriving DecidableEq, Repr

/-- The Go `error` values that can come back from the destination. -/
structure Error where
  text : String
  deriving DecidableEq, Repr

/-- The ways the Go code stops without returning. -/
inductive Panic where
  /-- An explicit `panic("...")` with its message. -/
  | message (s : String)
  /-- The run-time failure of `xs[i]` when `i >= len(xs)`. -/
  | indexOutOfRange (i len : Nat)
  deriving DecidableEq, Repr

/-- What a call of `OnRow` ends in: it returns (`nil` or an error), or it panics. -/
inductive Outcome where
  | returned (err : Option Error)
  | panicked (p : Panic)
  deriving DecidableEq, Repr

/-- An operation performed on the destination store. -/
inductive Op where
  /-- The call `sql.Open("postgres", psqlInfo)`. -/
  | sqlOpen
  /-- The call `db.Ping()`, which establishes the connection. -/
  | ping
  /-- The call `db.Exec(query, args...)`: one parameterised write. -/
  | exec (query : String) (args : List Value)
  /-- The call `db.Close()`. -/
  | close
  deriving DecidableEq, Repr

/-- The answers of the world outside the program during one call of `OnRow`:
`none` is Go's `nil` error. -/
structure Env where
  /-- Result of `godotenv.Load()`. -/
  loadEnv : Option Error
  /-- Result of `sql.Open`. -/
  sqlOpen : Option Error
  /-- Result of `db.Ping`. -/
  ping : Option Error
  /-- Result of `db.Exec` on a query and its arguments. -/
  exec : String → List Value → Option Error
  /-- Result of `db.Close`. -/
  close : Option Error

/-- The type `mysql.Position`: a log name and an offset (`uint32` in the source). -/
structure Position where
  Name : String
  Pos : Nat
  deriving DecidableEq, Repr

/-- The fields of `canal.RowsEvent` that `OnRow` reads: `e.Table.Name`, `e.Action`,
`e.Header.LogPos` and `e.Rows`. -/
structure RowsEvent where
  Table : String
  Action : String
  LogPos : Nat
  Rows : List (List Value)
  deriving DecidableEq, Repr

/-- The struct `MyEventHandler`. -/
structure MyEventHandler where
  startingPosition : Position
  targetTableOne : String
  targetTableTwo : String
  targetTableThree : String
  deriving DecidableEq, Repr

/-! ## The replay predicate -/

/-- Go's `strings.Compare(a, b)`: `0` when equal, `-1` when `a < b`, `+1` otherwise. -/
def stringsCompare (a b : String) : Int :=
  if a = b then 0 else if a < b then -1 else 1

/-- The method `isBeforeStartingPosition`:
`logPos < h.startingPosition.Pos || strings.Compare(h.startingPosition.Name, "") == 0`. -/
def isBeforeStartingPosition (h : MyEventHandler) (logPos : Nat) : Bool :=
  decide (logPos < h.startingPosition.Pos) || decide (stringsCompare h.startingPosition.Name "" = 0)

/-! ## Connection set-up and tear-down -/

/-- The function `SetupDatabaseConnection`: load the environment file, open the handle,
ping; each failure panics with its own message.  Returns the operations performed. -/
def SetupDatabaseConnection (env : Env) : Except Panic Unit × List Op :=
  match env.loadEnv with
  | some _ => (.error (.message "Failed to load env file"), [])
  | none =>
    match env.sqlOpen with
    | some _ => (.error (.message "Failed to connect to database"), [Op.sqlOpen])
    | none =>
      match env.ping with
      | some _ => (.error (.message "Failed to ping database"), [Op.sqlOpen, Op.ping])
      | none => (.ok (), [Op.sqlOpen, Op.ping])

/-- The function `CloseDatabaseConnection`: close the handle, panic when that fails. -/
def CloseDatabaseConnection (env : Env) : Except Panic Unit × List Op :=
  match env.close with
  | some _ => (.error (.message "Failed to close the database connection"), [Op.close])
  | none => (.ok (), [Op.close])

/-! ## The lifecycle writers -/

/-- Go's index expression `xs[i]`: the element, or the out-of-range panic. -/
def index {α : Type} (xs : List α) (i : Nat) : Except Panic α :=
  match xs.get? i with
  | some x => .ok x
  | none => .error (.indexOutOfRange i xs.length)

/-- The expression `rows[0][j]`. -/
def cell (rows : List (List Value)) (j : Nat) : Except Panic Value :=
  match index rows 0 with
  | .error p => .error p
  | .ok row => index row j

/-- The arguments `rows[0][j₁], rows[0][j₂], ...` of a call, evaluated left to right;
the first failing index expression panics. -/
def cells (rows : List (List Value)) : List Nat → Except Panic (List Value)
  | [] => .ok []
  | j :: js =>
    match cell rows j with
    | .error p => .error p
    | .ok v =>
      match cells rows js with
      | .error p => .error p
      | .ok vs => .ok (v :: vs)

/-- The query text of `insertRowIntoTransaction`. -/
def insertSQL : String :=
  "INSERT INTO transaction (transaction_pk, event_timestamp, connector_pk, id_tag, start_timestamp, start_value) VALUES ($1, $2, $3, $4, $5, $6)"

/-- The query text of `updateRowIntoTransaction`. -/
def updateSQL : String :=
  "UPDATE transaction SET stop_timestamp = $1, stop_value = $2, stop_reason = $3 WHERE transaction_pk = $4"

/-- The query text of `updateRowIntoTransactionFailed`. -/
def updateFailedSQL : String :=
  "UPDATE transaction SET stop_timestamp = $1, stop_value = $2, stop_reason = $3, fail_reason = $4 WHERE transaction_pk = $5"

/-- The call `db.Exec(query, rows[0][j₁], ...)` followed by
`if err != nil { return err }; return nil`: the arguments are evaluated first, then the
write is issued once and its error, if any, is returned. -/
def execCells (env : Env) (query : String) (js : List Nat) (rows : List (List Value)) :
    Except Panic (Option Error) × List Op :=
  match cells rows js with
  | .error p => (.error p, [])
  | .ok args => (.ok (env.exec query args), [Op.exec query args])

/-- The function `insertRowIntoTransaction`. -/
def insertRowIntoTransaction (env : Env) (rows : List (List Value)) :
    Except Panic (Option Error) × List Op :=
  execCells env insertSQL [0, 1, 2, 3, 4, 5] rows

/-- The function `updateRowIntoTransaction`. -/
def updateRowIntoTransaction (env : Env) (rows : List (List Value)) :
    Except Panic (Option Error) × List Op :=
  execCells env updateSQL [3, 4, 5, 0] rows

/-- The function `updateRowIntoTransactionFailed`. -/
def updateRowIntoTransactionFailed (env : Env) (rows : List (List Value)) :
    Except Panic (Option Error) × List Op :=
  execCells env updateFailedSQL [3, 4, 5, 6, 0] rows

/-! ## The router -/

/-- The body shared by the three `case` branches of `OnRow` once the action is `"insert"`:
```
postgresDB := SetupDatabaseConnection()
defer CloseDatabaseConnection(postgresDB)
err := writer(postgresDB, e.Rows)
if err != nil { return err }
```
and then the `return nil` that ends `OnRow`.  A panic in the set-up happens before the
`defer` is registered; after that the deferred close runs on every exit, a panic of the
writer included, and a panic of the close itself is the one the caller sees. -/
def withConnection (env : Env)
    (writer : Env → List (List Value) → Except Panic (Option Error) × List Op)
    (rows : List (List Value)) : Outcome × List Op :=
  match SetupDatabaseConnection env with
  | (.error p, t₁) => (.panicked p, t₁)
  | (.ok (), t₁) =>
    match writer env rows, CloseDatabaseConnection env with
    | (_, t₂), (.error p, t₃) => (.panicked p, t₁ ++ t₂ ++ t₃)
    | (.error p, t₂), (.ok (), t₃) => (.panicked p, t₁ ++ t₂ ++ t₃)
    | (.ok err, t₂), (.ok (), t₃) => (.returned err, t₁ ++ t₂ ++ t₃)

/-- The method `OnRow`: the replay filter, then the `switch` on the table name (the first
matching `case` is taken), each branch acting only when the action is `"insert"`. -/
def OnRow (h : MyEventHandler) (env : Env) (e : RowsEvent) : Outcome × List Op :=
  if isBeforeStartingPosition h e.LogPos then
    (.returned none, [])
  else if e.Table = h.targetTableOne then
    if e.Action = "insert" then withConnection env insertRowIntoTransaction e.Rows
    else (.returned none, [])
  else if e.Table = h.targetTableTwo then
    if e.Action = "insert" then withConnection env updateRowIntoTransaction e.Rows
    else (.returned none, [])
  else if e.Table = h.targetTableThree then
    if e.Action = "insert" then withConnection env updateRowIntoTransactionFailed e.Rows
    else (.returned none, [])
  else
    (.returned none, [])

/-! ## Reading the trace and the statements -/

/-- What `OnRow` ends in once the writer has returned `r` and the deferred close has run. -/
def afterClose (env : Env) (r : Option Error) : Outcome :=
  match env.close with
  | some _ => .panicked (.message "Failed to close the database connection")
  | none => .returned r

/-- The writes of a trace: the `db.Exec` calls, in order, each as its query and arguments. -/
def writes : List Op → List (String × List Value)
  | [] => []
  | Op.exec q args :: t => (q, args) :: writes t
  | _ :: t => writes t

/-- Delivery of a sequence of row events by the event source, each with the environment
it meets: the events are handed to `OnRow` one at a time, in order, and the first one
that does not return `nil` ends the delivery with that outcome. -/
def deliverAll (h : MyEventHandler) : List (Env × RowsEvent) → Outcome × List Op
  | [] => (.returned none, [])
  | (env, e) :: rest =>
    match OnRow h env e with
    | (.returned none, t) => ((deliverAll h rest).1, t ++ (deliverAll h rest).2)
    | (o, t) => (o, t)

/-- The environment lets `SetupDatabaseConnection` return: the environment file loads,
the handle opens and the ping succeeds. -/
def Env.connects (env : Env) : Prop :=
  env.loadEnv = none ∧ env.sqlOpen = none ∧ env.ping = none

instance (env : Env) : Decidable env.connects := by
  unfold Env.connects; infer_instance

/-- The event's table is one of the three configured target tables. -/
def tracked (h : MyEventHandler) (table : String) : Prop :=
  table = h.targetTableOne ∨ table = h.targetTableTwo ∨ table = h.targetTableThree

instance (h : MyEventHandler) (table : String) : Decidable (tracked h table) := by
  unfold tracked; infer_instance

/-- The number of columns the writer that `OnRow` selects for a table reads from row 0:
one more than the largest index it uses (5 for the first two writers, 6 for the third). -/
def requiredColumns (h : MyEventHandler) (table : String) : Nat :=
  if table = h.targetTableOne then 6
  else if table = h.targetTableTwo then 6
  else 7

/-- The query and the argument indices of the writer that `OnRow` selects for a table. -/
def selected (h : MyEventHandler) (table : String) : String × List Nat :=
  if table = h.targetTableOne then (insertSQL, [0, 1, 2, 3, 4, 5])
  else if table = h.targetTableTwo then (updateSQL, [3, 4, 5, 0])
  else (updateFailedSQL, [3, 4, 5, 6, 0])

/-- A parameterised statement read by its structure: the table, the columns that receive
the placeholders `$1, $2, ...` in order and, for an update, the key column compared with
the last placeholder. -/
inductive Stmt where
  | insertInto (table : String) (columns : List String)
  | updateWhere (table : String) (sets : List String) (key : String)
  deriving DecidableEq, Repr

/-- The placeholder of the argument at position `i` (counted from 0). -/
def placeholder (i : Nat) : String := "$" ++ toString (i + 1)

/-- The assignments `c = $k` of an update, numbered from position `i`. -/
def setClauses : Nat → List String → List String
  | _, [] => []
  | i, c :: cs => (c ++ " = " ++ placeholder i) :: setClauses (i + 1) cs

/-- The SQL text of a statement. -/
def Stmt.text : Stmt → String
  | .insertInto table columns =>
    "INSERT INTO " ++ table ++ " (" ++ ", ".intercalate columns ++ ") VALUES ("
      ++ ", ".intercalate ((List.range columns.length).map placeholder) ++ ")"
  | .updateWhere table sets key =>
    "UPDATE " ++ table ++ " SET " ++ ", ".intercalate (setClauses 0 sets)
      ++ " WHERE " ++ key ++ " = " ++ placeholder sets.length

/-- The value each column receives: placeholder `$k` stands for the `k`-th argument. -/
def Stmt.assigns : Stmt → List Value → List (String × Value)
  | .insertInto _ columns, args => columns.zip args
  | .updateWhere _ sets _, args => sets.zip args

/-- The row an update targets: its key column and the argument compared with it. -/
def Stmt.target : Stmt → List Value → Option (String × Value)
  | .insertInto _ _, _ => none
  | .updateWhere _ sets key, args => (args.get? sets.length).map (fun v => (key, v))

/-- The statement of `insertRowIntoTransaction`. -/
def insertStmt : Stmt :=
  .insertInto "transaction"
    ["transaction_pk", "event_timestamp", "connector_pk", "id_tag", "start_timestamp", "start_value"]

/-- The statement of `updateRowIntoTransaction`. -/
def updateStmt : Stmt :=
  .updateWhere "transaction" ["stop_timestamp", "stop_value", "stop_reason"] "transaction_pk"

/-- The statement of `updateRowIntoTransactionFailed`. -/
def updateFailedStmt : Stmt :=
  .updateWhere "transaction" ["stop_timestamp", "stop_value", "stop_reason", "fail_reason"]
    "transaction_pk"

/-! ## Sample inputs -/

/-- A handler with a named baseline at offset 100. -/
def sampleHandler : MyEventHandler :=
  { startingPosition := { Name := "mysql-bin.000001", Pos := 100 },
    targetTableOne := "transaction_start",
    targetTableTwo := "transaction_stop",
    targetTableThree := "transaction_stop_failed" }

/-- A handler whose baseline has no log name. -/
def unnamedHandler : MyEventHandler :=
  { sampleHandler with startingPosition := { Name := "", Pos := 100 } }

/-- An environment in which every call succeeds. -/
def okEnv : Env :=
  { loadEnv := none, sqlOpen := none, ping := none, exec := fun _ _ => none, close := none }

/-- An environment in which every write fails with the given error. -/
def failingEnv (err : Error) : Env :=
  { okEnv with exec := fun _ _ => some err }

/-- An environment in which every write fails with `err` and the close fails with
`closeErr`. -/
def closeFailingEnv (err closeErr : Error) : Env :=
  { failingEnv err with close := some closeErr }

/-- The six columns of the Start example. -/
def startRow : List Value :=
  [.int 42, .str "2024-01-01T00:00:00Z", .int 7, .str "TAG1", .str "2024-01-01T00:00:01Z", .int 0]

/-- The six columns of the Stop-Normal example (columns 1 and 2 are arbitrary). -/
def stopRow : List Value :=
  [.int 42, .null, .null, .str "2024-01-01T01:00:00Z", .int 100, .str "Local"]

/-- Seven columns for the Stop-Failed writer. -/
def stopFailedRow : List Value :=
  [.int 42, .null, .null, .str "2024-01-01T01:00:00Z", .int 100, .str "Local", .str "EVFailure"]

/-! ## Auxiliary facts -/

theorem stringsCompare_eq_zero_iff (a b : String) : stringsCompare a b = 0 ↔ a = b := by
  unfold stringsCompare
  by_cases hab : a = b
  · simp [hab]
  · by_cases hlt : a < b <;> simp [hab, hlt]

theorem isBefore_eq (h : MyEventHandler) (p : Nat) :
    isBeforeStartingPosition h p
      = (decide (p < h.startingPosition.Pos) || decide (h.startingPosition.Name = "")) := by
  unfold isBeforeStartingPosition
  congr 1
  exact decide_eq_decide.mpr (stringsCompare_eq_zero_iff _ _)

theorem isBefore_iff (h : MyEventHandler) (p : Nat) :
    isBeforeStartingPosition h p = true
      ↔ p < h.startingPosition.Pos ∨ h.startingPosition.Name = "" := by
  simp [isBefore_eq]

theorem isBefore_false_iff (h : MyEventHandler) (p : Nat) :
    isBeforeStartingPosition h p = false
      ↔ h.startingPosition.Pos ≤ p ∧ h.startingPosition.Name ≠ "" := by
  simp [isBefore_eq]

theorem onRow_replay (h : MyEventHandler) (env : Env) (e : RowsEvent)
    (hrep : isBeforeStartingPosition h e.LogPos = true) :
    OnRow h env e = (.returned none, []) := by
  simp [OnRow, hrep]

theorem deliverAll_replay (h : MyEventHandler) (evs : List (Env × RowsEvent))
    (hall : ∀ x ∈ evs, isBeforeStartingPosition h x.2.LogPos = true) :
    deliverAll h evs = (.returned none, []) := by
  induction evs with
  | nil => rfl
  | cons x rest ih =>
    obtain ⟨env, e⟩ := x
    have hx : OnRow h env e = (.returned none, []) :=
      onRow_replay h env e (hall (env, e) (List.mem_cons_self _ _))
    have hrest : deliverAll h rest = (.returned none, []) :=
      ih (fun y hy => hall y (List.mem_cons_of_mem _ hy))
    simp [deliverAll, hx, hrest]

theorem setup_of_connects (env : Env) (hconn : env.connects) :
    SetupDatabaseConnection env = (.ok (), [Op.sqlOpen, Op.ping]) := by
  obtain ⟨h1, h2, h3⟩ := hconn
  simp [SetupDatabaseConnection, h1, h2, h3]

theorem withConnection_exec (env : Env) (q : String) (js : List Nat)
    (rows : List (List Value)) (args : List Value)
    (hconn : env.connects) (hargs : cells rows js = .ok args) :
    withConnection env (fun en r => execCells en q js r) rows
      = (afterClose env (env.exec q args), [Op.sqlOpen, Op.ping, Op.exec q args, Op.close]) := by
  unfold withConnection afterClose
  rw [setup_of_connects env hconn]
  cases hcl : env.close <;> simp [execCells, hargs, CloseDatabaseConnection, hcl]

theorem onRow_selected (h : MyEventHandler) (env : Env) (e : RowsEvent)
    (hrep : isBeforeStartingPosition h e.LogPos = false)
    (htr : tracked h e.Table) (hins : e.Action = "insert") :
    OnRow h env e
      = withConnection env
          (fun en r => execCells en (selected h e.Table).1 (selected h e.Table).2 r) e.Rows := by
  unfold OnRow selected
  rw [hrep]
  simp only [Bool.false_eq_true, if_false, hins, if_true]
  unfold tracked at htr
  split_ifs with h1 h2 h3
  · rfl
  · rfl
  · rfl
  · rcases htr with hc | hc | hc
    · exact absurd hc h1
    · exact absurd hc h2
    · exact absurd hc h3

theorem onRow_exec (h : MyEventHandler) (env : Env) (e : RowsEvent) (args : List Value)
    (hrep : isBeforeStartingPosition h e.LogPos = false)
    (htr : tracked h e.Table) (hins : e.Action = "insert") (hconn : env.connects)
    (hargs : cells e.Rows (selected h e.Table).2 = .ok args) :
    OnRow h env e
      = (afterClose env (env.exec (selected h e.Table).1 args),
         [Op.sqlOpen, Op.ping, Op.exec (selected h e.Table).1 args, Op.close]) := by
  rw [onRow_selected h env e hrep htr hins]
  exact withConnection_exec env _ _ _ _ hconn hargs

theorem withConnection_panic (env : Env) (q : String) (js : List Nat)
    (rows : List (List Value)) (p : Panic) (hargs : cells rows js = .error p) :
    (∃ p', (withConnection env (fun en r => execCells en q js r) rows).1 = .panicked p')
    ∧ writes (withConnection env (fun en r => execCells en q js r) rows).2 = []
    ∧ (env.connects →
        (withConnection env (fun en r => execCells en q js r) rows).2
            = [Op.sqlOpen, Op.ping, Op.close]
        ∧ (env.close = none →
            (withConnection env (fun en r => execCells en q js r) rows).1 = .panicked p)) := by
  unfold withConnection
  cases hl : env.loadEnv with
  | some e1 => simp [SetupDatabaseConnection, hl, writes, Env.connects]
  | none =>
    cases ho : env.sqlOpen with
    | some e2 => simp [SetupDatabaseConnection, hl, ho, writes, Env.connects]
    | none =>
      cases hp : env.ping with
      | some e3 => simp [SetupDatabaseConnection, hl, ho, hp, writes, Env.connects]
      | none =>
        cases hc : env.close <;>
          simp [SetupDatabaseConnection, hl, ho, hp, hc, writes, Env.connects, execCells, hargs,
            CloseDatabaseConnection]

theorem cells_cons (row : List Value) (rest rest' : List (List Value)) (js : List Nat) :
    cells (row :: rest) js = cells (row :: rest') js := by
  induction js with
  | nil => rfl
  | cons j js ih => simp [cells, cell, index, ih]

theorem index_of_lt {α : Type} (xs : List α) (i : Nat) (hi : i < xs.length) :
    index xs i = .ok (xs.get ⟨i, hi⟩) := by
  unfold index
  rw [List.get?_eq_get hi]

theorem index_of_le {α : Type} (xs : List α) (i : Nat) (hi : xs.length ≤ i) :
    index xs i = .error (.indexOutOfRange i xs.length) := by
  unfold index
  rw [List.get?_eq_none.mpr hi]

theorem cell_cons (row : List Value) (rest : List (List Value)) (j : Nat) :
    cell (row :: rest) j = index row j := rfl

theorem cell_ok_of_lt (row : List Value) (rest : List (List Value)) (j : Nat)
    (hj : j < row.length) : ∃ v, cell (row :: rest) j = .ok v :=
  ⟨row.get ⟨j, hj⟩, by rw [cell_cons, index_of_lt row j hj]⟩

theorem cells_ok_of_lt (row : List Value) (rest : List (List Value)) (js : List Nat)
    (hjs : ∀ j ∈ js, j < row.length) : ∃ args, cells (row :: rest) js = .ok args := by
  induction js with
  | nil => exact ⟨[], rfl⟩
  | cons j js ih =>
    obtain ⟨v, hv⟩ := cell_ok_of_lt row rest j (hjs j (List.mem_cons_self _ _))
    obtain ⟨vs, hvs⟩ := ih (fun i hi => hjs i (List.mem_cons_of_mem _ hi))
    exact ⟨v :: vs, by simp [cells, hv, hvs]⟩

theorem cell_error (rows : List (List Value)) (j : Nat) (p : Panic)
    (hp : cell rows j = .error p) : ∃ i n, p = .indexOutOfRange i n ∧ n ≤ i := by
  cases rows with
  | nil =>
    have h0 : cell ([] : List (List Value)) j = .error (.indexOutOfRange 0 0) := rfl
    rw [h0] at hp
    exact ⟨0, 0, (Except.error.inj hp).symm, le_refl 0⟩
  | cons row rest =>
    rw [cell_cons] at hp
    by_cases hj : j < row.length
    · rw [index_of_lt row j hj] at hp
      cases hp
    · rw [index_of_le row j (Nat.le_of_not_lt hj)] at hp
      exact ⟨j, row.length, (Except.error.inj hp).symm, Nat.le_of_not_lt hj⟩

theorem cell_ok_lt (rows : List (List Value)) (j : Nat) (v : Value)
    (hv : cell rows j = .ok v) : ∃ row rest, rows = row :: rest ∧ j < row.length := by
  cases rows with
  | nil =>
    have h0 : cell ([] : List (List Value)) j = .error (.indexOutOfRange 0 0) := rfl
    rw [h0] at hv
    cases hv
  | cons row rest =>
    refine ⟨row, rest, rfl, ?_⟩
    by_contra hj
    rw [cell_cons, index_of_le row j (Nat.le_of_not_lt hj)] at hv
    cases hv

theorem cells_error (rows : List (List Value)) (js : List Nat) (j : Nat) (hj : j ∈ js)
    (hshort : ∀ row ∈ rows.head?, row.length ≤ j) :
    ∃ i n, cells rows js = .error (.indexOutOfRange i n) ∧ n ≤ i := by
  induction js with
  | nil => exact absurd hj (List.not_mem_nil _)
  | cons k ks ih =>
    cases hk : cell rows k with
    | error p =>
      obtain ⟨i, n, hpi, hle⟩ := cell_error rows k p hk
      exact ⟨i, n, by simp [cells, hk, hpi], hle⟩
    | ok v =>
      obtain ⟨row, rest, hrows, hlt⟩ := cell_ok_lt rows k v hk
      have hrow : row.length ≤ j := hshort row (by simp [hrows])
      have hjk : j ≠ k := by omega
      have hmem : j ∈ ks := by
        rcases List.mem_cons.mp hj with hc | hc
        · exact absurd hc hjk
        · exact hc
      obtain ⟨i, n, he, hle⟩ := ih hmem
      exact ⟨i, n, by simp [cells, hk, he], hle⟩

theorem cells_ok_lt (rows : List (List Value)) (js : List Nat) (args : List Value)
    (hargs : cells rows js = .ok args) (j : Nat) (hj : j ∈ js) :
    ∃ row rest, rows = row :: rest ∧ j < row.length := by
  by_contra hcon
  have hshort : ∀ row ∈ rows.head?, row.length ≤ j := by
    intro row hrow
    cases rows with
    | nil => simp at hrow
    | cons r rest =>
      simp at hrow
      by_contra hlt
      exact hcon ⟨r, rest, rfl, by rw [hrow]; omega⟩
  obtain ⟨i, n, he, _⟩ := cells_error rows js j hj hshort
  rw [he] at hargs
  cases hargs

theorem selected_snd_lt (h : MyEventHandler) (table : String) :
    ∀ j ∈ (selected h table).2, j < requiredColumns h table := by
  unfold selected requiredColumns
  split_ifs <;> decide

theorem requiredColumns_pred_mem (h : MyEventHandler) (table : String) :
    requiredColumns h table - 1 ∈ (selected h table).2 := by
  unfold selected requiredColumns
  split_ifs <;> decide

/-! ## The replay predicate (C1, C9) -/

/-- C1: `isBeforeStartingPosition p` is true exactly when `p` is below the baseline offset
or the baseline name is empty; so it is true for every `p` under an empty baseline name,
and false for every `p` at or above the baseline offset under a non-empty name. -/
theorem C1_isBeforeStartingPosition_iff (h : MyEventHandler) (p : Nat) :
    (isBeforeStartingPosition h p = true
        ↔ p < h.startingPosition.Pos ∨ h.startingPosition.Name = "")
    ∧ (h.startingPosition.Name = "" → ∀ q : Nat, isBeforeStartingPosition h q = true)
    ∧ (h.startingPosition.Name ≠ "" →
        ∀ q : Nat, h.startingPosition.Pos ≤ q → isBeforeStartingPosition h q = false) := by
  refine ⟨isBefore_iff h p, ?_, ?_⟩
  · intro hname q
    exact (isBefore_iff h q).mpr (Or.inr hname)
  · intro hname q hq
    exact (isBefore_false_iff h q).mpr ⟨hq, hname⟩

/-- Witness of C1 at the sample handlers: offsets 99, 100 and `2^32 - 1` against the
baseline 100, with and without a log name. -/
theorem C1_isBeforeStartingPosition_iff_witness :
    unnamedHandler.startingPosition.Name = ""
    ∧ sampleHandler.startingPosition.Name ≠ ""
    ∧ isBeforeStartingPosition unnamedHandler 4294967295 = true
    ∧ isBeforeStartingPosition sampleHandler 99 = true
    ∧ isBeforeStartingPosition sampleHandler 100 = false
    ∧ isBeforeStartingPosition sampleHandler 4294967295 = false :=
  ⟨by decide, by decide,
   (C1_isBeforeStartingPosition_iff unnamedHandler 0).2.1 (by decide) 4294967295,
   (C1_isBeforeStartingPosition_iff sampleHandler 99).1.mpr (Or.inl (by decide)),
   (C1_isBeforeStartingPosition_iff sampleHandler 0).2.2 (by decide) 100 (by decide),
   (C1_isBeforeStartingPosition_iff sampleHandler 0).2.2 (by decide) 4294967295 (by decide)⟩

/-! ## Events that cause no destination operation (C2, C3) -/

/-- C2: a row event whose offset `isBeforeStartingPosition` classifies as replay makes
`OnRow` return `nil` with no destination operation at all, whatever its table, action
and rows and whatever the environment; hence delivering any sequence of such events,
repeated any number of times, returns `nil` and leaves the trace empty. -/
theorem C2_replay_is_noop (h : MyEventHandler) (env : Env) (e : RowsEvent)
    (hrep : isBeforeStartingPosition h e.LogPos = true) :
    OnRow h env e = (.returned none, [])
    ∧ ∀ evs : List (Env × RowsEvent),
        (∀ x ∈ evs, isBeforeStartingPosition h x.2.LogPos = true) →
        ∀ n : Nat, deliverAll h (List.replicate n evs).flatten = (.returned none, []) := by
  refine ⟨onRow_replay h env e hrep, ?_⟩
  intro evs hall n
  apply deliverAll_replay
  intro x hx
  obtain ⟨l, hl, hxl⟩ := List.mem_flatten.mp hx
  rw [List.eq_of_mem_replicate hl] at hxl
  exact hall x hxl

/-- Witness of C2: an insert on the Start table at offset 50, below the baseline 100,
with an empty row. -/
theorem C2_replay_is_noop_witness :
    isBeforeStartingPosition sampleHandler 50 = true
    ∧ OnRow sampleHandler okEnv ⟨"transaction_start", "insert", 50, [[]]⟩
        = (.returned none, []) :=
  ⟨(isBefore_iff sampleHandler 50).mpr (Or.inl (by decide)),
   (C2_replay_is_noop sampleHandler okEnv ⟨"transaction_start", "insert", 50, [[]]⟩
      ((isBefore_iff sampleHandler 50).mpr (Or.inl (by decide)))).1⟩

/-- C3: a row event that is not replay and whose table is none of the three target
tables, or whose action is not `"insert"`, makes `OnRow` return `nil` with no destination
operation, whatever its rows and whatever the environment. -/
theorem C3_untracked_or_non_insert_is_noop (h : MyEventHandler) (env : Env) (e : RowsEvent)
    (hrep : isBeforeStartingPosition h e.LogPos = false)
    (hskip : ¬ tracked h e.Table ∨ e.Action ≠ "insert") :
    OnRow h env e = (.returned none, []) := by
  rcases hskip with hnot | hact
  · have h1 : e.Table ≠ h.targetTableOne := fun hc => hnot (Or.inl hc)
    have h2 : e.Table ≠ h.targetTableTwo := fun hc => hnot (Or.inr (Or.inl hc))
    have h3 : e.Table ≠ h.targetTableThree := fun hc => hnot (Or.inr (Or.inr hc))
    simp [OnRow, hrep, h1, h2, h3]
  · simp [OnRow, hrep, hact]

/-- Witness of C3: an update on the Start table at offset 200, with no rows. -/
theorem C3_untracked_or_non_insert_is_noop_witness :
    isBeforeStartingPosition sampleHandler 200 = false
    ∧ (⟨"transaction_start", "update", 200, []⟩ : RowsEvent).Action ≠ "insert"
    ∧ OnRow sampleHandler okEnv ⟨"transaction_start", "update", 200, []⟩
        = (.returned none, []) :=
  ⟨(isBefore_false_iff sampleHandler 200).mpr ⟨by decide, by decide⟩, by decide,
   C3_untracked_or_non_insert_is_noop sampleHandler okEnv ⟨"transaction_start", "update", 200, []⟩
     ((isBefore_false_iff sampleHandler 200).mpr ⟨by decide, by decide⟩) (Or.inr (by decide))⟩

/-! ## The three writers (C4, C5, C6) -/

/-- C4: a non-replay insert on the Start table with a single row of six columns, once the
connection is set up, issues exactly one write: the insert into `transaction` whose
parameters are the six columns in their order, bound to `transaction_pk`,
`event_timestamp`, `connector_pk`, `id_tag`, `start_timestamp`, `start_value`. -/
theorem C4_start_issues_one_insert (h : MyEventHandler) (env : Env) (p : Nat)
    (c0 c1 c2 c3 c4 c5 : Value)
    (hrep : isBeforeStartingPosition h p = false) (hconn : env.connects) :
    (OnRow h env ⟨h.targetTableOne, "insert", p, [[c0, c1, c2, c3, c4, c5]]⟩).2
        = [Op.sqlOpen, Op.ping, Op.exec insertSQL [c0, c1, c2, c3, c4, c5], Op.close]
    ∧ writes (OnRow h env ⟨h.targetTableOne, "insert", p, [[c0, c1, c2, c3, c4, c5]]⟩).2
        = [(insertSQL, [c0, c1, c2, c3, c4, c5])]
    ∧ insertSQL = insertStmt.text
    ∧ insertStmt.assigns [c0, c1, c2, c3, c4, c5]
        = [("transaction_pk", c0), ("event_timestamp", c1), ("connector_pk", c2),
           ("id_tag", c3), ("start_timestamp", c4), ("start_value", c5)] := by
  have hrun := onRow_selected h env ⟨h.targetTableOne, "insert", p, [[c0, c1, c2, c3, c4, c5]]⟩
    hrep (Or.inl rfl) rfl
  have hsel : selected h h.targetTableOne = (insertSQL, [0, 1, 2, 3, 4, 5]) := by
    simp [selected]
  simp only [hsel] at hrun
  rw [withConnection_exec env insertSQL [0, 1, 2, 3, 4, 5] [[c0, c1, c2, c3, c4, c5]]
    [c0, c1, c2, c3, c4, c5] hconn rfl]
    at hrun
  rw [hrun]
  exact ⟨rfl, rfl, by decide, rfl⟩

/-- Witness of C4: the Start example of the specification at offset 200. -/
theorem C4_start_issues_one_insert_witness :
    isBeforeStartingPosition sampleHandler 200 = false
    ∧ okEnv.connects
    ∧ writes (OnRow sampleHandler okEnv ⟨"transaction_start", "insert", 200, [startRow]⟩).2
        = [(insertSQL, startRow)] :=
  ⟨(isBefore_false_iff sampleHandler 200).mpr ⟨by decide, by decide⟩, by decide,
   (C4_start_issues_one_insert sampleHandler okEnv 200
      (.int 42) (.str "2024-01-01T00:00:00Z") (.int 7) (.str "TAG1")
      (.str "2024-01-01T00:00:01Z") (.int 0)
      ((isBefore_false_iff sampleHandler 200).mpr ⟨by decide, by decide⟩) (by decide)).2.1⟩

/-- C5: a non-replay insert on the Stop-Normal table (distinct from the Start table) with
a single row of six columns, once the connection is set up, issues exactly one write: the
update of `transaction` that targets `transaction_pk = c0` and sets `stop_timestamp = c3`,
`stop_value = c4`, `stop_reason = c5`.  It does not set `fail_reason`, and the whole run
is the same whatever stands in columns 1 and 2. -/
theorem C5_stop_normal_issues_one_update (h : MyEventHandler) (env : Env) (p : Nat)
    (c0 c1 c2 c3 c4 c5 : Value)
    (hrep : isBeforeStartingPosition h p = false) (hconn : env.connects)
    (hne : h.targetTableTwo ≠ h.targetTableOne) :
    (OnRow h env ⟨h.targetTableTwo, "insert", p, [[c0, c1, c2, c3, c4, c5]]⟩).2
        = [Op.sqlOpen, Op.ping, Op.exec updateSQL [c3, c4, c5, c0], Op.close]
    ∧ writes (OnRow h env ⟨h.targetTableTwo, "insert", p, [[c0, c1, c2, c3, c4, c5]]⟩).2
        = [(updateSQL, [c3, c4, c5, c0])]
    ∧ updateSQL = updateStmt.text
    ∧ updateStmt.assigns [c3, c4, c5, c0]
        = [("stop_timestamp", c3), ("stop_value", c4), ("stop_reason", c5)]
    ∧ updateStmt.target [c3, c4, c5, c0] = some ("transaction_pk", c0)
    ∧ (∀ v : Value, ("fail_reason", v) ∉ updateStmt.assigns [c3, c4, c5, c0])
    ∧ (∀ d1 d2 : Value,
        OnRow h env ⟨h.targetTableTwo, "insert", p, [[c0, d1, d2, c3, c4, c5]]⟩
          = OnRow h env ⟨h.targetTableTwo, "insert", p, [[c0, c1, c2, c3, c4, c5]]⟩) := by
  have hsel : selected h h.targetTableTwo = (updateSQL, [3, 4, 5, 0]) := by
    simp [selected, hne]
  have hrun : ∀ d1 d2 : Value,
      OnRow h env ⟨h.targetTableTwo, "insert", p, [[c0, d1, d2, c3, c4, c5]]⟩
        = (afterClose env (env.exec updateSQL [c3, c4, c5, c0]),
           [Op.sqlOpen, Op.ping, Op.exec updateSQL [c3, c4, c5, c0], Op.close]) := by
    intro d1 d2
    have hr := onRow_selected h env ⟨h.targetTableTwo, "insert", p, [[c0, d1, d2, c3, c4, c5]]⟩
      hrep (Or.inr (Or.inl rfl)) rfl
    simp only [hsel] at hr
    rw [withConnection_exec env updateSQL [3, 4, 5, 0] [[c0, d1, d2, c3, c4, c5]]
      [c3, c4, c5, c0] hconn rfl] at hr
    exact hr
  refine ⟨?_, ?_, by decide, rfl, rfl, ?_, ?_⟩
  · rw [hrun c1 c2]
  · rw [hrun c1 c2]; rfl
  · intro v hv
    simp [updateStmt, Stmt.assigns] at hv
  · intro d1 d2
    rw [hrun d1 d2, hrun c1 c2]

/-- Witness of C5: the Stop-Normal example of the specification at offset 200. -/
theorem C5_stop_normal_issues_one_update_witness :
    isBeforeStartingPosition sampleHandler 200 = false
    ∧ okEnv.connects
    ∧ sampleHandler.targetTableTwo ≠ sampleHandler.targetTableOne
    ∧ writes (OnRow sampleHandler okEnv ⟨"transaction_stop", "insert", 200, [stopRow]⟩).2
        = [(updateSQL, [.str "2024-01-01T01:00:00Z", .int 100, .str "Local", .int 42])] :=
  ⟨(isBefore_false_iff sampleHandler 200).mpr ⟨by decide, by decide⟩, by decide, by decide,
   (C5_stop_normal_issues_one_update sampleHandler okEnv 200
      (.int 42) .null .null (.str "2024-01-01T01:00:00Z") (.int 100) (.str "Local")
      ((isBefore_false_iff sampleHandler 200).mpr ⟨by decide, by decide⟩)
      (by decide) (by decide)).2.1⟩

/-- C6: a non-replay insert on the Stop-Failed table (distinct from the other two target
tables) with a single row of seven columns, once the connection is set up, issues exactly
one write: an update of `transaction` targeting `transaction_pk = c0` whose stop
assignments and target are those of the Stop-Normal writer on the same columns, and
which sets `fail_reason = c6` in addition. -/
theorem C6_stop_failed_issues_one_update (h : MyEventHandler) (env : Env) (p : Nat)
    (c0 c1 c2 c3 c4 c5 c6 : Value)
    (hrep : isBeforeStartingPosition h p = false) (hconn : env.connects)
    (hne1 : h.targetTableThree ≠ h.targetTableOne)
    (hne2 : h.targetTableThree ≠ h.targetTableTwo) :
    (OnRow h env ⟨h.targetTableThree, "insert", p, [[c0, c1, c2, c3, c4, c5, c6]]⟩).2
        = [Op.sqlOpen, Op.ping, Op.exec updateFailedSQL [c3, c4, c5, c6, c0], Op.close]
    ∧ writes (OnRow h env ⟨h.targetTableThree, "insert", p, [[c0, c1, c2, c3, c4, c5, c6]]⟩).2
        = [(updateFailedSQL, [c3, c4, c5, c6, c0])]
    ∧ updateFailedSQL = updateFailedStmt.text
    ∧ writes (updateRowIntoTransaction env [[c0, c1, c2, c3, c4, c5, c6]]).2
        = [(updateSQL, [c3, c4, c5, c0])]
    ∧ updateFailedStmt.assigns [c3, c4, c5, c6, c0]
        = updateStmt.assigns [c3, c4, c5, c0] ++ [("fail_reason", c6)]
    ∧ updateFailedStmt.target [c3, c4, c5, c6, c0] = some ("transaction_pk", c0)
    ∧ updateStmt.target [c3, c4, c5, c0] = some ("transaction_pk", c0) := by
  have hsel : selected h h.targetTableThree = (updateFailedSQL, [3, 4, 5, 6, 0]) := by
    simp [selected, hne1, hne2]
  have hrun := onRow_selected h env
    ⟨h.targetTableThree, "insert", p, [[c0, c1, c2, c3, c4, c5, c6]]⟩
    hrep (Or.inr (Or.inr rfl)) rfl
  simp only [hsel] at hrun
  rw [withConnection_exec env updateFailedSQL [3, 4, 5, 6, 0] [[c0, c1, c2, c3, c4, c5, c6]]
    [c3, c4, c5, c6, c0] hconn rfl]
    at hrun
  rw [hrun]
  exact ⟨rfl, rfl, by decide, rfl, rfl, rfl, rfl⟩

/-- Witness of C6: a seven-column Stop-Failed row at offset 200. -/
theorem C6_stop_failed_issues_one_update_witness :
    isBeforeStartingPosition sampleHandler 200 = false
    ∧ okEnv.connects
    ∧ sampleHandler.targetTableThree ≠ sampleHandler.targetTableOne
    ∧ sampleHandler.targetTableThree ≠ sampleHandler.targetTableTwo
    ∧ writes (OnRow sampleHandler okEnv
        ⟨"transaction_stop_failed", "insert", 200, [stopFailedRow]⟩).2
        = [(updateFailedSQL,
            [.str "2024-01-01T01:00:00Z", .int 100, .str "Local", .str "EVFailure", .int 42])] :=
  ⟨(isBefore_false_iff sampleHandler 200).mpr ⟨by decide, by decide⟩, by decide, by decide,
   by decide,
   (C6_stop_failed_issues_one_update sampleHandler okEnv 200
      (.int 42) .null .null (.str "2024-01-01T01:00:00Z") (.int 100) (.str "Local")
      (.str "EVFailure")
      ((isBefore_false_iff sampleHandler 200).mpr ⟨by decide, by decide⟩)
      (by decide) (by decide) (by decide)).2.1⟩

/-! ## Error propagation (C7) -/

/-- C7, the claim refuted: a well-formed Start insert after the baseline, with the
connection set up, whose write fails with `duplicate key` and whose deferred close fails
too.  The write is issued once, but `OnRow` does not return that error: it panics in
`CloseDatabaseConnection` and the error of the write is lost. -/
theorem C7_close_failure_counterexample :
    isBeforeStartingPosition sampleHandler 200 = false
    ∧ tracked sampleHandler "transaction_start"
    ∧ requiredColumns sampleHandler "transaction_start" ≤ startRow.length
    ∧ (closeFailingEnv ⟨"duplicate key"⟩ ⟨"bad connection"⟩).connects
    ∧ (closeFailingEnv ⟨"duplicate key"⟩ ⟨"bad connection"⟩).exec insertSQL startRow
        = some ⟨"duplicate key"⟩
    ∧ OnRow sampleHandler (closeFailingEnv ⟨"duplicate key"⟩ ⟨"bad connection"⟩)
        ⟨"transaction_start", "insert", 200, [startRow]⟩
        = (.panicked (.message "Failed to close the database connection"),
           [Op.sqlOpen, Op.ping, Op.exec insertSQL startRow, Op.close])
    ∧ (OnRow sampleHandler (closeFailingEnv ⟨"duplicate key"⟩ ⟨"bad connection"⟩)
        ⟨"transaction_start", "insert", 200, [startRow]⟩).1
        ≠ .returned (some ⟨"duplicate key"⟩) := by
  have hrep : isBeforeStartingPosition sampleHandler 200 = false :=
    (isBefore_false_iff sampleHandler 200).mpr ⟨by decide, by decide⟩
  have hrun : OnRow sampleHandler (closeFailingEnv ⟨"duplicate key"⟩ ⟨"bad connection"⟩)
      ⟨"transaction_start", "insert", 200, [startRow]⟩
      = (.panicked (.message "Failed to close the database connection"),
         [Op.sqlOpen, Op.ping, Op.exec insertSQL startRow, Op.close]) := by
    rw [onRow_selected sampleHandler _ _ hrep (by decide) rfl]
    decide
  refine ⟨hrep, by decide, by decide, by decide, rfl, hrun, ?_⟩
  rw [hrun]
  intro hc
  cases hc

/-- C7 amended: for a non-replay insert on a tracked table whose first row has the columns
the selected writer reads, with the connection set up, and for every outcome of the
write, `OnRow` issues the write exactly once (no retry); when the deferred close
succeeds it returns exactly what the write returned, the error unchanged when it fails
and `nil` when it succeeds; when the deferred close fails it returns nothing and panics
in `CloseDatabaseConnection`.  Conversely, in every environment, `OnRow` returns an
error only for such an event, after one write that failed with that very error and a
close that succeeded. -/
theorem C7_write_outcome_after_close (h : MyEventHandler) (env : Env) (e : RowsEvent) :
    (isBeforeStartingPosition h e.LogPos = false → tracked h e.Table → e.Action = "insert" →
      (∃ row rest, e.Rows = row :: rest ∧ requiredColumns h e.Table ≤ row.length) →
      env.connects →
      ∃ args, cells e.Rows (selected h e.Table).2 = .ok args
        ∧ writes (OnRow h env e).2 = [((selected h e.Table).1, args)]
        ∧ (env.close = none →
            (OnRow h env e).1 = .returned (env.exec (selected h e.Table).1 args))
        ∧ (env.close ≠ none →
            (OnRow h env e).1
              = .panicked (.message "Failed to close the database connection")))
    ∧ (∀ err, (OnRow h env e).1 = .returned (some err) →
        isBeforeStartingPosition h e.LogPos = false ∧ tracked h e.Table ∧ e.Action = "insert"
        ∧ (∃ row rest, e.Rows = row :: rest ∧ requiredColumns h e.Table ≤ row.length)
        ∧ env.connects ∧ env.close = none
        ∧ ∃ args, cells e.Rows (selected h e.Table).2 = .ok args
            ∧ writes (OnRow h env e).2 = [((selected h e.Table).1, args)]
            ∧ env.exec (selected h e.Table).1 args = some err) := by
  constructor
  · intro hrep htr hins hwf hconn
    obtain ⟨row, rest, hrows, hlen⟩ := hwf
    obtain ⟨args, hargs⟩ := cells_ok_of_lt row rest (selected h e.Table).2
      (fun j hj => Nat.lt_of_lt_of_le (selected_snd_lt h e.Table j hj) hlen)
    rw [← hrows] at hargs
    refine ⟨args, hargs, ?_, ?_, ?_⟩
    · rw [onRow_exec h env e args hrep htr hins hconn hargs]; rfl
    · intro hclose
      rw [onRow_exec h env e args hrep htr hins hconn hargs]
      simp [afterClose, hclose]
    · intro hclose
      rw [onRow_exec h env e args hrep htr hins hconn hargs]
      cases hcl : env.close with
      | none => exact absurd hcl hclose
      | some c => simp [afterClose, hcl]
  · intro err herr
    cases hrep : isBeforeStartingPosition h e.LogPos with
    | true =>
      rw [onRow_replay h env e hrep] at herr
      simp at herr
    | false =>
      by_cases hskip : ¬ tracked h e.Table ∨ e.Action ≠ "insert"
      · have hnoop : OnRow h env e = (.returned none, []) := by
          rcases hskip with hnot | hact
          · have h1 : e.Table ≠ h.targetTableOne := fun hc => hnot (Or.inl hc)
            have h2 : e.Table ≠ h.targetTableTwo := fun hc => hnot (Or.inr (Or.inl hc))
            have h3 : e.Table ≠ h.targetTableThree := fun hc => hnot (Or.inr (Or.inr hc))
            simp [OnRow, hrep, h1, h2, h3]
          · simp [OnRow, hrep, hact]
        rw [hnoop] at herr
        simp at herr
      · have htr : tracked h e.Table := by
          by_contra hc; exact hskip (Or.inl hc)
        have hins : e.Action = "insert" := by
          by_contra hc; exact hskip (Or.inr hc)
        cases hargs : cells e.Rows (selected h e.Table).2 with
        | error p =>
          obtain ⟨⟨p', hp'⟩, _, _⟩ :=
            withConnection_panic env (selected h e.Table).1 (selected h e.Table).2 e.Rows p hargs
          rw [onRow_selected h env e hrep htr hins, hp'] at herr
          cases herr
        | ok args =>
          obtain ⟨row, rest, hrows, hlt⟩ := cells_ok_lt e.Rows (selected h e.Table).2 args hargs
            (requiredColumns h e.Table - 1) (requiredColumns_pred_mem h e.Table)
          have hconn : env.connects := by
            by_contra hc
            rw [onRow_selected h env e hrep htr hins] at herr
            unfold Env.connects at hc
            unfold withConnection SetupDatabaseConnection at herr
            cases hl : env.loadEnv <;> cases ho : env.sqlOpen <;> cases hp : env.ping <;>
              simp_all
          rw [onRow_exec h env e args hrep htr hins hconn hargs] at herr
          have hclose : env.close = none := by
            cases hcl : env.close with
            | some c => simp [afterClose, hcl] at herr
            | none => rfl
          refine ⟨rfl, htr, hins, ⟨row, rest, hrows, by omega⟩, hconn, hclose, args, rfl, ?_, ?_⟩
          · rw [onRow_exec h env e args hrep htr hins hconn hargs]; rfl
          · simp [afterClose, hclose] at herr
            exact herr

/-- Witness of C7 amended: the Start example at offset 200 against a destination that
rejects every write with the error `duplicate key` and closes cleanly; `OnRow` returns
that error. -/
theorem C7_write_outcome_after_close_witness :
    isBeforeStartingPosition sampleHandler 200 = false
    ∧ tracked sampleHandler "transaction_start"
    ∧ (failingEnv ⟨"duplicate key"⟩).connects
    ∧ (failingEnv ⟨"duplicate key"⟩).close = none
    ∧ (OnRow sampleHandler (failingEnv ⟨"duplicate key"⟩)
        ⟨"transaction_start", "insert", 200, [startRow]⟩).1
        = .returned (some ⟨"duplicate key"⟩) :=
  ⟨(isBefore_false_iff sampleHandler 200).mpr ⟨by decide, by decide⟩, by decide, by decide,
   rfl,
   Exists.elim
     ((C7_write_outcome_after_close sampleHandler (failingEnv ⟨"duplicate key"⟩)
        ⟨"transaction_start", "insert", 200, [startRow]⟩).1
        ((isBefore_false_iff sampleHandler 200).mpr ⟨by decide, by decide⟩) (by decide) rfl
        ⟨startRow, [], rfl, by decide⟩ (by decide))
     (fun _ hargs => hargs.2.2.1 rfl)⟩

/-! ## Rows that are too short (C8) -/

/-- C8, the claim refuted: a non-replay insert on the Start table whose single row has
five columns does not make `OnRow` return an error; with the destination fully working
the call panics on the index expression `rows[0][5]`, after the connection was opened
and before any write, and the deferred close runs. -/
theorem C8_short_row_counterexample :
    isBeforeStartingPosition sampleHandler 200 = false
    ∧ tracked sampleHandler "transaction_start"
    ∧ (startRow.take 5).length < requiredColumns sampleHandler "transaction_start"
    ∧ OnRow sampleHandler okEnv ⟨"transaction_start", "insert", 200, [startRow.take 5]⟩
        = (.panicked (.indexOutOfRange 5 5), [Op.sqlOpen, Op.ping, Op.close])
    ∧ ¬ ∃ err, (OnRow sampleHandler okEnv
          ⟨"transaction_start", "insert", 200, [startRow.take 5]⟩).1 = .returned (some err) := by
  have hrep : isBeforeStartingPosition sampleHandler 200 = false :=
    (isBefore_false_iff sampleHandler 200).mpr ⟨by decide, by decide⟩
  have hrun : OnRow sampleHandler okEnv ⟨"transaction_start", "insert", 200, [startRow.take 5]⟩
      = (.panicked (.indexOutOfRange 5 5), [Op.sqlOpen, Op.ping, Op.close]) := by
    rw [onRow_selected sampleHandler okEnv _ hrep (by decide) rfl]
    decide
  refine ⟨hrep, by decide, by decide, hrun, ?_⟩
  rintro ⟨err, herr⟩
  rw [hrun] at herr
  cases herr

/-- C8 amended: for a non-replay insert on a tracked table whose first row is missing or
has fewer columns than the selected writer reads, `OnRow` does not return at all, neither
an error nor `nil`: in every environment it ends in a panic and issues no write.  With
the connection set up, the trace is open, ping, close; if the close succeeds too, the
panic is the out-of-range failure of an index expression. -/
theorem C8_short_row_panics (h : MyEventHandler) (env : Env) (e : RowsEvent)
    (hrep : isBeforeStartingPosition h e.LogPos = false)
    (htr : tracked h e.Table) (hins : e.Action = "insert")
    (hshort : ∀ row ∈ e.Rows.head?, row.length < requiredColumns h e.Table) :
    (∃ p, (OnRow h env e).1 = .panicked p)
    ∧ (∀ r, (OnRow h env e).1 ≠ .returned r)
    ∧ writes (OnRow h env e).2 = []
    ∧ (env.connects →
        (OnRow h env e).2 = [Op.sqlOpen, Op.ping, Op.close]
        ∧ (env.close = none →
            ∃ i n, n ≤ i ∧ (OnRow h env e).1 = .panicked (.indexOutOfRange i n))) := by
  obtain ⟨i, n, hcells, hle⟩ := cells_error e.Rows (selected h e.Table).2
    (requiredColumns h e.Table - 1) (requiredColumns_pred_mem h e.Table)
    (fun row hrow => Nat.le_pred_of_lt (hshort row hrow))
  obtain ⟨⟨p, hp⟩, hw, hc⟩ :=
    withConnection_panic env (selected h e.Table).1 (selected h e.Table).2 e.Rows _ hcells
  rw [onRow_selected h env e hrep htr hins]
  refine ⟨⟨p, hp⟩, ?_, hw, ?_⟩
  · intro r hr
    rw [hp] at hr
    cases hr
  · intro hconn
    exact ⟨(hc hconn).1, fun hclose => ⟨i, n, hle, (hc hconn).2 hclose⟩⟩

/-- Witness of C8 amended: a Stop-Failed insert with the six-column Stop-Normal row. -/
theorem C8_short_row_panics_witness :
    isBeforeStartingPosition sampleHandler 200 = false
    ∧ tracked sampleHandler "transaction_stop_failed"
    ∧ stopRow.length < requiredColumns sampleHandler "transaction_stop_failed"
    ∧ writes (OnRow sampleHandler okEnv
        ⟨"transaction_stop_failed", "insert", 200, [stopRow]⟩).2 = []
    ∧ ∃ p, (OnRow sampleHandler okEnv
        ⟨"transaction_stop_failed", "insert", 200, [stopRow]⟩).1 = .panicked p :=
  ⟨(isBefore_false_iff sampleHandler 200).mpr ⟨by decide, by decide⟩, by decide, by decide,
   (C8_short_row_panics sampleHandler okEnv ⟨"transaction_stop_failed", "insert", 200, [stopRow]⟩
      ((isBefore_false_iff sampleHandler 200).mpr ⟨by decide, by decide⟩) (by decide) rfl
      (by decide)).2.2.1,
   (C8_short_row_panics sampleHandler okEnv ⟨"transaction_stop_failed", "insert", 200, [stopRow]⟩
      ((isBefore_false_iff sampleHandler 200).mpr ⟨by decide, by decide⟩) (by decide) rfl
      (by decide)).1⟩

/-! ## The baseline offset itself (C9) -/

/-- C9, the claim refuted: under the named baseline at offset 100, a Start insert whose
offset is exactly 100 is not classified as replay, and `OnRow` writes it. -/
theorem C9_equal_offset_counterexample :
    sampleHandler.startingPosition.Name ≠ ""
    ∧ (100 : Nat) ≤ sampleHandler.startingPosition.Pos
    ∧ isBeforeStartingPosition sampleHandler 100 = false
    ∧ OnRow sampleHandler okEnv ⟨"transaction_start", "insert", 100, [startRow]⟩
        = (.returned none, [Op.sqlOpen, Op.ping, Op.exec insertSQL startRow, Op.close]) := by
  have hrep : isBeforeStartingPosition sampleHandler 100 = false :=
    (isBefore_false_iff sampleHandler 100).mpr ⟨by decide, by decide⟩
  refine ⟨by decide, by decide, hrep, ?_⟩
  rw [onRow_selected sampleHandler okEnv _ hrep (by decide) rfl]
  decide

/-- C9 amended: under a baseline with a non-empty log name, every event whose offset is
strictly below the baseline offset is classified as replay and suppressed by `OnRow`
without any destination operation; an event whose offset equals the baseline offset is
not classified as replay. -/
theorem C9_replay_strictly_before (h : MyEventHandler) (env : Env) (e : RowsEvent)
    (hname : h.startingPosition.Name ≠ "") :
    (e.LogPos < h.startingPosition.Pos →
        isBeforeStartingPosition h e.LogPos = true ∧ OnRow h env e = (.returned none, []))
    ∧ (e.LogPos = h.startingPosition.Pos → isBeforeStartingPosition h e.LogPos = false) := by
  constructor
  · intro hlt
    have hrep := (isBefore_iff h e.LogPos).mpr (Or.inl hlt)
    exact ⟨hrep, onRow_replay h env e hrep⟩
  · intro heq
    exact (isBefore_false_iff h e.LogPos).mpr ⟨Nat.le_of_eq heq.symm, hname⟩

/-- Witness of C9 amended: offset 99 against the named baseline at offset 100. -/
theorem C9_replay_strictly_before_witness :
    sampleHandler.startingPosition.Name ≠ ""
    ∧ (99 : Nat) < sampleHandler.startingPosition.Pos
    ∧ isBeforeStartingPosition sampleHandler 99 = true
    ∧ OnRow sampleHandler okEnv ⟨"transaction_start", "insert", 99, [startRow]⟩
        = (.returned none, []) :=
  ⟨by decide, by decide,
   (C9_replay_strictly_before sampleHandler okEnv ⟨"transaction_start", "insert", 99, [startRow]⟩
      (by decide)).1 (by decide)⟩

/-! ## Only row 0 is read (C10) -/

/-- C10: `OnRow` reads row 0 only.  Two events that agree on table, action, offset and
row 0 end the same way with the same trace, whatever rows follow and however many; and
for a non-replay insert on a tracked table whose row 0 has the columns the selected
writer reads, with the connection set up, the trace holds exactly one write, whose
arguments are taken from row 0. -/
theorem C10_only_first_row (h : MyEventHandler) (env : Env) (table action : String)
    (p : Nat) (row0 : List Value) (rest : List (List Value)) :
    (∀ rest' : List (List Value),
        OnRow h env ⟨table, action, p, row0 :: rest'⟩
          = OnRow h env ⟨table, action, p, row0 :: rest⟩)
    ∧ (isBeforeStartingPosition h p = false → tracked h table → action = "insert" →
        requiredColumns h table ≤ row0.length → env.connects →
        ∃ args, cells [row0] (selected h table).2 = .ok args
          ∧ writes (OnRow h env ⟨table, action, p, row0 :: rest⟩).2
              = [((selected h table).1, args)]) := by
  constructor
  · intro rest'
    have hc : ∀ js, cells (row0 :: rest') js = cells (row0 :: rest) js :=
      fun js => cells_cons row0 rest' rest js
    simp only [OnRow, withConnection, insertRowIntoTransaction, updateRowIntoTransaction,
      updateRowIntoTransactionFailed, execCells, hc]
  · intro hrep htr hins hlen hconn
    obtain ⟨args, hargs⟩ := cells_ok_of_lt row0 [] (selected h table).2
      (fun j hj => Nat.lt_of_lt_of_le (selected_snd_lt h table j hj) hlen)
    have hargs' : cells (row0 :: rest) (selected h table).2 = .ok args := by
      rw [cells_cons row0 rest []]; exact hargs
    refine ⟨args, hargs, ?_⟩
    rw [onRow_exec h env ⟨table, action, p, row0 :: rest⟩ args hrep htr hins hconn hargs']
    rfl

/-- Witness of C10: a Start insert carrying the Start row followed by two further rows
issues the single insert built from the Start row. -/
theorem C10_only_first_row_witness :
    isBeforeStartingPosition sampleHandler 200 = false
    ∧ tracked sampleHandler "transaction_start"
    ∧ requiredColumns sampleHandler "transaction_start" ≤ startRow.length
    ∧ okEnv.connects
    ∧ OnRow sampleHandler okEnv ⟨"transaction_start", "insert", 200, [startRow]⟩
        = OnRow sampleHandler okEnv ⟨"transaction_start", "insert", 200, [startRow, stopRow, []]⟩
    ∧ ∃ args, cells [startRow] (selected sampleHandler "transaction_start").2 = .ok args
        ∧ writes (OnRow sampleHandler okEnv
            ⟨"transaction_start", "insert", 200, [startRow, stopRow, []]⟩).2
            = [((selected sampleHandler "transaction_start").1, args)] :=
  ⟨(isBefore_false_iff sampleHandler 200).mpr ⟨by decide, by decide⟩, by decide, by decide,
   by decide,
   (C10_only_first_row sampleHandler okEnv "transaction_start" "insert" 200 startRow
      [stopRow, []]).1 [],
   (C10_only_first_row sampleHandler okEnv "transaction_start" "insert" 200 startRow
      [stopRow, []]).2
      ((isBefore_false_iff sampleHandler 200).mpr ⟨by decide, by decide⟩) (by decide) rfl
      (by decide) (by decide)⟩

end GoSqlListener
